import Mathlib

/-!
Verification of the signal-protocol binding crate against its design
specification.  The Rust sources under `src/` are shallowly embedded:
machine integers become `Nat`, byte strings become `List Nat`, fallible
constructors return `Except`/`PyOutcome`, and the panicking `.expect`
calls of the source are made explicit as a `panic` outcome.  Operations
whose bodies live in the external `libsignal_protocol` crate (only their
call sites are in `src/`) are modelled from the specification text; each
such definition carries a doc comment starting `Modelled from the spec:`.
-/

namespace SignalSpec

/-! ## Symbolic cryptographic primitives

Modelled from the spec: §4.1 Key Primitives describes elliptic-curve key
pairs, sign/verify (deterministic or randomized) and Diffie-Hellman
agreement abstractly; the curve implementation is external.  We model the
DH group as modular exponentiation with generator 5 modulo `M`, and
signatures symbolically: a signature records the signer's public key, a
digest of the message, and the signing nonce (the scheme may be
randomized, so signing consumes randomness). -/

def M : Nat := 2 ^ 255 - 19

/-- Public key derived from a private scalar. -/
def pubOf (k : Nat) : Nat := 5 ^ k % M

/-- Diffie-Hellman agreement of a private scalar with a public key. -/
def dh (priv : Nat) (pub : Nat) : Nat := pub ^ priv % M

theorem dh_comm (a b : Nat) : dh a (pubOf b) = dh b (pubOf a) := by
  unfold dh pubOf
  rw [← Nat.pow_mod, ← Nat.pow_mod, ← pow_mul, ← pow_mul, Nat.mul_comm]

/-- One mixing step of the key-derivation function. -/
def mix (acc : Nat) (x : Nat) : Nat := (acc * 1000003 + x + 1) % M

/-- Digest of a byte string, used as the message image inside signatures. -/
def digest (msg : List Nat) : Nat := msg.foldl mix 3

/-- A symbolic signature: the signer's public key, the digest of the signed
message, and the nonce drawn from the RNG at signing time. -/
structure Sig where
  signerPub : Nat
  msgDigest : Nat
  nonce : Nat
  deriving DecidableEq, Repr

/-- Randomized signing with private key `k` over message `msg`. -/
def sign (k : Nat) (msg : List Nat) (rand : Nat) : Sig :=
  { signerPub := pubOf k, msgDigest := digest msg, nonce := rand }

/-- Signature verification against a public key. -/
def verify (pub : Nat) (msg : List Nat) (s : Sig) : Bool :=
  s.signerPub == pub && s.msgDigest == digest msg

/-! ## Addresses and association-list storage -/

/-- ProtocolAddress: (user identifier, device index) tuple (spec §3). -/
structure ProtocolAddress where
  name : String
  device_id : Nat
  deriving DecidableEq, Repr

/-- Association-list lookup; the first binding for a key wins. -/
def alookup {α β : Type} [DecidableEq α] : List (α × β) → α → Option β
  | [], _ => none
  | (k, v) :: rest, key => if key = k then some v else alookup rest key

theorem alookup_cons_self {α β : Type} [DecidableEq α] (k : α) (v : β)
    (l : List (α × β)) : alookup ((k, v) :: l) k = some v := by
  simp [alookup]

/-! ## C10: the hard-coded MyUuid -/

/-- The fixed UUID 67e55044-10b1-426f-9247-bb680e5fe0c8 as a 128-bit number,
from `src/uuid.rs`. -/
def fixedUuid : Nat := 0x67e5504410b1426f9247bb680e5fe0c8

/-- `MyUuid` wraps a UUID value (`src/uuid.rs`). -/
structure MyUuid where
  uuid : Nat
  deriving DecidableEq, Repr

/-- `MyUuid::new` from `src/uuid.rs`: always returns the fixed UUID. -/
def MyUuid.new (_ : Unit) : MyUuid := { uuid := fixedUuid }

/-! ## C1: message-type discriminants -/

/-- The four ciphertext message variants (`src/protocol.rs`). -/
inductive CiphertextMessageType where
  | Whisper
  | PreKey
  | SenderKey
  | SenderKeyDistribution
  deriving DecidableEq, Repr

/-- `CiphertextMessage` wraps a message variant and its serialized bytes
(`src/protocol.rs`). -/
structure CiphertextMessage where
  msgType : CiphertextMessageType
  bytes : List Nat

/-- `CiphertextMessage::message_type` (`src/protocol.rs` lines 27-41): the
documented mapping of `CiphertextMessageType` to `u8` is Whisper => 2,
PreKey => 3, SenderKey => 4, SenderKeyDistribution => 5. -/
def CiphertextMessage.message_type (m : CiphertextMessage) : Nat :=
  match m.msgType with
  | .Whisper => 2
  | .PreKey => 3
  | .SenderKey => 4
  | .SenderKeyDistribution => 5

/-! ## Sealed-sender certificates (C3) -/

/-- Serialized body of a server certificate (key id and embedded key). -/
def serverCertBody (key_id : Nat) (key : Nat) : List Nat := [key_id, key]

/-- ServerCertificate: key id, embedded public key, and the trust root's
signature over the body (`src/sealed_sender.rs`). -/
structure ServerCertificate where
  key_id : Nat
  public_key : Nat
  signature : Sig
  deriving DecidableEq, Repr

/-- Modelled from the spec: `ServerCertificate::new` in
`src/sealed_sender.rs` delegates to the external crate; per §3 and §4.6 it
binds (key id, key) with a signature by the trust root's private key. -/
def ServerCertificate.new (key_id : Nat) (key : Nat) (trust_root : Nat)
    (rand : Nat) : ServerCertificate :=
  { key_id := key_id, public_key := key,
    signature := sign trust_root (serverCertBody key_id key) rand }

/-- Modelled from the spec: `ServerCertificate::validate` checks the
certificate's signature against the caller-supplied trust root. -/
def ServerCertificate.validate (c : ServerCertificate)
    (trust_root : Nat) : Bool :=
  verify trust_root (serverCertBody c.key_id c.public_key) c.signature

/-- Serialized body of a sender certificate. -/
def senderCertBody (sender_uuid : String) (sender_e164 : Option String)
    (key : Nat) (sender_device_id : Nat) (expiration : Nat)
    (signer : ServerCertificate) : List Nat :=
  (sender_uuid.toList.map Char.toNat)
    ++ (match sender_e164 with
        | none => [0]
        | some e => 1 :: e.toList.map Char.toNat)
    ++ [key, sender_device_id, expiration, signer.key_id, signer.public_key,
        signer.signature.signerPub, signer.signature.msgDigest,
        signer.signature.nonce]

/-- SenderCertificate: sender identity fields, expiration (milliseconds
since epoch), the signing server certificate, and that server key's
signature over the body (`src/sealed_sender.rs`). -/
structure SenderCertificate where
  sender_uuid : String
  sender_e164 : Option String
  key : Nat
  sender_device_id : Nat
  expiration : Nat
  signer : ServerCertificate
  signature : Sig
  deriving DecidableEq, Repr

/-- Modelled from the spec: `SenderCertificate::new` in
`src/sealed_sender.rs` delegates to the external crate; per §3 and §4.6 it
signs the certificate body with the server certificate's private key. -/
def SenderCertificate.new (sender_uuid : String) (sender_e164 : Option String)
    (key : Nat) (sender_device_id : Nat) (expiration : Nat)
    (signer : ServerCertificate) (signer_key : Nat) (rand : Nat) :
    SenderCertificate :=
  { sender_uuid := sender_uuid, sender_e164 := sender_e164, key := key,
    sender_device_id := sender_device_id, expiration := expiration,
    signer := signer,
    signature := sign signer_key
      (senderCertBody sender_uuid sender_e164 key sender_device_id
        expiration signer) rand }

/-- Modelled from the spec: `SenderCertificate::validate(trust_root, now)`
(§4.6) checks (a) the server certificate's signature against the trust
root, (b) the sender certificate's signature against the server
certificate's key, and (c) that `now` is before expiration; failing any
check reports validation failure (a `false` result, never a panic). -/
def SenderCertificate.validate (c : SenderCertificate) (trust_root : Nat)
    (validation_time : Nat) : Bool :=
  c.signer.validate trust_root
    && verify c.signer.public_key
        (senderCertBody c.sender_uuid c.sender_e164 c.key c.sender_device_id
          c.expiration c.signer) c.signature
    && decide (validation_time < c.expiration)

/-! ## C1: UnidentifiedSenderMessageContent construction -/

/-- UnidentifiedSenderMessageContent: message type, sender certificate,
contents, content hint and group id (`src/sealed_sender.rs`). -/
structure UnidentifiedSenderMessageContent where
  msgType : CiphertextMessageType
  sender : SenderCertificate
  contents : List Nat
  content_hint : Nat
  group_id : List Nat

/-- `UnidentifiedSenderMessageContent::new` (`src/sealed_sender.rs` lines
176-198): maps the numeric discriminant 2 to Whisper, 3 to PreKey and 7 to
SenderKey, and rejects every other value with an "unknown message type"
error. -/
def UnidentifiedSenderMessageContent.new (msg_type_value : Nat)
    (sender : SenderCertificate) (contents : List Nat) (content_hint : Nat)
    (group_id : List Nat) :
    Except String UnidentifiedSenderMessageContent :=
  match msg_type_value with
  | 2 => .ok { msgType := .Whisper, sender := sender, contents := contents,
               content_hint := content_hint, group_id := group_id }
  | 3 => .ok { msgType := .PreKey, sender := sender, contents := contents,
               content_hint := content_hint, group_id := group_id }
  | 7 => .ok { msgType := .SenderKey, sender := sender, contents := contents,
               content_hint := content_hint, group_id := group_id }
  | v => .error ("unknown message type: " ++ toString v)

/-! ## C4: optional one-time prekey in bootstrap values -/

/-- Outcome of a Python-facing call: a value, a raised error, or a Rust
panic (the source's `.expect(..)` on a `None` option). -/
inductive PyOutcome (α : Type) where
  | ok (a : α)
  | err (msg : String)
  | panic (msg : String)
  deriving DecidableEq, Repr

/-- PreKeyBundle: snapshot of a remote party's published keys
(`src/state.rs`). -/
structure PreKeyBundle where
  registration_id : Nat
  device_id : Nat
  pre_key_id : Option Nat
  pre_key_public : Option Nat
  signed_pre_key_id : Nat
  signed_pre_key_public : Nat
  signed_pre_key_signature : List Nat
  identity_key : Nat
  deriving DecidableEq, Repr

/-- `PreKeyBundle::new` (`src/state.rs` lines 26-57): unwraps the optional
`pre_key_public` with `.expect("todo")`, so a `None` argument panics with
message "todo"; with `Some k` it builds the bundle carrying
`Some((pre_key_id, k))`. -/
def PreKeyBundle.new (registration_id : Nat) (device_id : Nat)
    (pre_key_id : Nat) (pre_key_public : Option Nat)
    (signed_pre_key_id : Nat) (signed_pre_key_public : Nat)
    (signed_pre_key_signature : List Nat) (identity_key : Nat) :
    PyOutcome PreKeyBundle :=
  match pre_key_public with
  | none => .panic "todo"
  | some k =>
    .ok { registration_id := registration_id, device_id := device_id,
          pre_key_id := some pre_key_id, pre_key_public := some k,
          signed_pre_key_id := signed_pre_key_id,
          signed_pre_key_public := signed_pre_key_public,
          signed_pre_key_signature := signed_pre_key_signature,
          identity_key := identity_key }

/-- A ratchet (whisper) message payload, kept abstract as its serialized
bytes for the bootstrap constructor. -/
structure SignalMessage where
  bytes : List Nat
  deriving DecidableEq, Repr

/-- PreKeySignalMessage: prekey-wrapped first message (`src/protocol.rs`). -/
structure PreKeySignalMessage where
  message_version : Nat
  registration_id : Nat
  pre_key_id : Option Nat
  signed_pre_key_id : Nat
  base_key : Nat
  identity_key : Nat
  message : SignalMessage
  deriving DecidableEq, Repr

/-- `PreKeySignalMessage::new` (`src/protocol.rs` lines 74-106): unwraps the
optional `pre_key_id` with `.expect("foo")`, so a `None` argument panics
with message "foo"; with `Some pid` the message carries `Some pid`. -/
def PreKeySignalMessage.new (message_version : Nat) (registration_id : Nat)
    (pre_key_id : Option Nat) (signed_pre_key_id : Nat) (base_key : Nat)
    (identity_key : Nat) (message : SignalMessage) :
    PyOutcome PreKeySignalMessage :=
  match pre_key_id with
  | none => .panic "foo"
  | some pid =>
    .ok { message_version := message_version,
          registration_id := registration_id, pre_key_id := some pid,
          signed_pre_key_id := signed_pre_key_id, base_key := base_key,
          identity_key := identity_key, message := message }

/-! ## C6: error propagation of the prekey-processing wrappers -/

/-- The error taxonomy of the engine (spec §7), each kind carrying its
message. -/
inductive SignalError where
  | invalidKeyMaterial (msg : String)
  | signatureVerificationFailed (msg : String)
  | certificateExpired (msg : String)
  | unknownMessageVersion (msg : String)
  | sessionNotFound (msg : String)
  | untrustedIdentity (msg : String)
  | replayOrOrderingViolation (msg : String)
  | storageFailure (msg : String)
  deriving DecidableEq, Repr

/-- Message text of an engine error. -/
def SignalError.message : SignalError → String
  | .invalidKeyMaterial m => m
  | .signatureVerificationFailed m => m
  | .certificateExpired m => m
  | .unknownMessageVersion m => m
  | .sessionNotFound m => m
  | .untrustedIdentity m => m
  | .replayOrOrderingViolation m => m
  | .storageFailure m => m

/-- A Python-side exception carrying only a message string
(`src/error.rs`: the conversion to `PyErr` keeps the display string). -/
structure PyErr where
  message : String
  deriving DecidableEq, Repr

/-- `process_prekey_bundle` result handling (`src/session.rs` lines 43-65):
the wrapper matches the engine's result and replaces every error,
whatever its kind and message, with the fixed text
"error processing prekey bundle". -/
def process_prekey_bundle_wrap (upstream : Except SignalError Unit) :
    Except PyErr Unit :=
  match upstream with
  | .ok () => .ok ()
  | .error _ => .error { message := "error processing prekey bundle" }

/-- `process_prekey` result handling (`src/session.rs` lines 18-41): the
wrapper likewise replaces every error with the fixed text
"error processing prekey bundle". -/
def process_prekey_wrap (upstream : Except SignalError (Option Nat)) :
    Except PyErr (Option Nat) :=
  match upstream with
  | .ok prekey_id => .ok prekey_id
  | .error _ => .error { message := "error processing prekey bundle" }

/-! ## C2: X3DH session initialization -/

/-- SessionRecord: the ratchet state produced by session initialization; we
track the root key and the initial chain key it derives (spec §4.3). -/
structure SessionRecord where
  rootKey : Nat
  chainKey : Nat
  deriving DecidableEq, Repr

/-- Root-key derivation from the combined DH secrets. -/
def kdfRoot (secrets : List Nat) : Nat := secrets.foldl mix 1

/-- Chain-key derivation from the combined DH secrets. -/
def kdfChain (secrets : List Nat) : Nat := secrets.foldl mix 2

/-- Alice's initiator parameter set (`src/ratchet.rs` lines 17-35): own
identity and base key pairs (private scalars), and the remote's public
identity key, signed prekey and one-time prekey (the binding takes the
one-time prekey as mandatory). -/
structure AliceSignalProtocolParameters where
  our_identity_key_pair : Nat
  our_base_key_pair : Nat
  their_identity_key : Nat
  their_signed_pre_key : Nat
  their_one_time_pre_key : Nat
  deriving DecidableEq, Repr

/-- Bob's responder parameter set (`src/ratchet.rs` lines 93-121): own
identity, signed prekey, optional one-time prekey and ratchet key pairs
(private scalars), and the remote's public identity and base keys. -/
structure BobSignalProtocolParameters where
  our_identity_key_pair : Nat
  our_signed_pre_key_pair : Nat
  our_one_time_pre_key_pair : Option Nat
  our_ratchet_key_pair : Nat
  their_identity_key : Nat
  their_base_key : Nat
  deriving DecidableEq, Repr

/-- Modelled from the spec: the initiator DH combination of §4.3 —
identity with signed prekey, base with identity, base with signed prekey,
base with one-time prekey. -/
def aliceSecrets (p : AliceSignalProtocolParameters) : List Nat :=
  [dh p.our_identity_key_pair p.their_signed_pre_key,
   dh p.our_base_key_pair p.their_identity_key,
   dh p.our_base_key_pair p.their_signed_pre_key,
   dh p.our_base_key_pair p.their_one_time_pre_key]

/-- Modelled from the spec: the mirrored responder DH combination of §4.3. -/
def bobSecrets (p : BobSignalProtocolParameters) : List Nat :=
  [dh p.our_signed_pre_key_pair p.their_identity_key,
   dh p.our_identity_key_pair p.their_base_key,
   dh p.our_signed_pre_key_pair p.their_base_key]
    ++ (match p.our_one_time_pre_key_pair with
        | none => []
        | some k => [dh k p.their_base_key])

/-- Modelled from the spec: `initialize_alice_session` in `src/ratchet.rs`
delegates to the external crate; per §4.3 it derives a root key and the
initial sending chain key from the initiator DH combination. -/
def initialize_alice_session (p : AliceSignalProtocolParameters) :
    SessionRecord :=
  { rootKey := kdfRoot (aliceSecrets p),
    chainKey := kdfChain (aliceSecrets p) }

/-- Modelled from the spec: `initialize_bob_session` in `src/ratchet.rs`
delegates to the external crate; per §4.3 it derives the same root key and
the initial receiving chain key from the mirrored DH combination. -/
def initialize_bob_session (p : BobSignalProtocolParameters) :
    SessionRecord :=
  { rootKey := kdfRoot (bobSecrets p),
    chainKey := kdfChain (bobSecrets p) }

/-- Matching counterpart inputs: each party's view of the remote's public
keys is the public key of the counterpart's private key pair, and Bob
holds a one-time prekey pair matching the one Alice used. -/
def matchingParameters (a : AliceSignalProtocolParameters)
    (b : BobSignalProtocolParameters) : Prop :=
  a.their_identity_key = pubOf b.our_identity_key_pair
    ∧ a.their_signed_pre_key = pubOf b.our_signed_pre_key_pair
    ∧ (∃ k, b.our_one_time_pre_key_pair = some k
        ∧ a.their_one_time_pre_key = pubOf k)
    ∧ b.their_identity_key = pubOf a.our_identity_key_pair
    ∧ b.their_base_key = pubOf a.our_base_key_pair

/-! ## C5/C7/C8: the in-memory protocol store and the group engine -/

/-- Per-(sender, distribution id) sender-key ratchet state (spec §3,
SenderKeyRecord): chain id, iteration counter, chain key, the signing
public key, and — on the sending side only — the signing private key. -/
structure SenderKeyState where
  chain_id : Nat
  iteration : Nat
  chainKey : Nat
  signingPub : Nat
  signingPriv : Option Nat
  deriving DecidableEq, Repr

/-- `InMemSignalProtocolStore` (`src/storage.rs`): sessions and remote
identities keyed by address, sender-key state keyed by
(sender address, distribution id). -/
structure InMemSignalProtocolStore where
  sessions : List (ProtocolAddress × SessionRecord)
  identities : List (ProtocolAddress × Nat)
  senderKeys : List ((ProtocolAddress × Nat) × SenderKeyState)

/-- The freshly constructed store holds no sessions, identities or sender
keys. -/
def emptyStore : InMemSignalProtocolStore :=
  { sessions := [], identities := [], senderKeys := [] }

/-- Modelled from the spec: `load_session` (`src/storage.rs` lines 64-71)
delegates to the external in-memory store; per §4.2 a missing session
yields `absent` (`none`), not an error. -/
def InMemSignalProtocolStore.load_session (s : InMemSignalProtocolStore)
    (address : ProtocolAddress) : Except PyErr (Option SessionRecord) :=
  .ok (alookup s.sessions address)

/-- Modelled from the spec: `store_session` (`src/storage.rs` lines 73-79)
records the session for the address, overwriting any previous one. -/
def InMemSignalProtocolStore.store_session (s : InMemSignalProtocolStore)
    (address : ProtocolAddress) (record : SessionRecord) :
    InMemSignalProtocolStore :=
  { s with sessions := (address, record) :: s.sessions }

/-- Modelled from the spec: `save_identity` (`src/storage.rs` lines 47-52)
delegates to the external in-memory identity store; per §4.2 it saves the
identity and returns whether the stored identity changed — `true` exactly
when a different identity was already present. -/
def InMemSignalProtocolStore.save_identity (s : InMemSignalProtocolStore)
    (address : ProtocolAddress) (identity : Nat) :
    Bool × InMemSignalProtocolStore :=
  match alookup s.identities address with
  | none => (false, { s with identities := (address, identity) :: s.identities })
  | some old =>
    if old = identity then (false, s)
    else (true, { s with identities := (address, identity) :: s.identities })

/-- Modelled from the spec: `get_identity` (`src/storage.rs` lines 54-61)
returns the stored identity for the address, if any. -/
def InMemSignalProtocolStore.get_identity (s : InMemSignalProtocolStore)
    (address : ProtocolAddress) : Except PyErr (Option Nat) :=
  .ok (alookup s.identities address)

/-! ## Group sender-key engine (C5, C9) -/

/-- One-way advancement of a sender chain key (spec §4.5: the chain key
advances irreversibly one step per message). -/
def ckAdvance (ck : Nat) : Nat := (ck * 2862933555777941757 + 3037000493) % M

/-- Message-key derivation from a chain key (spec: chain key to message
key via one-way derivation, distinct from the advancement step). -/
def msgKeyOf (ck : Nat) : Nat := (ck * 6364136223846793005 + 1442695040888963407) % M

/-- Symmetric encryption of a byte string with a message key; XOR-based,
so the same function decrypts. -/
def xorCrypt (key : Nat) (data : List Nat) : List Nat :=
  data.map (fun b => b ^^^ key)

theorem xorCrypt_involutive (key : Nat) (data : List Nat) :
    xorCrypt key (xorCrypt key data) = data := by
  unfold xorCrypt
  rw [List.map_map]
  have h : ((fun b => b ^^^ key) ∘ fun b : Nat => b ^^^ key) = id := by
    funext b
    show b ^^^ key ^^^ key = b
    rw [Nat.xor_assoc, Nat.xor_self, Nat.xor_zero]
  rw [h, List.map_id]

/-- A sender-key group message: version, distribution id, chain id,
iteration, ciphertext and signature (`src/protocol.rs`, SenderKeyMessage). -/
structure SenderKeyMessage where
  message_version : Nat
  distribution_id : Nat
  chain_id : Nat
  iteration : Nat
  ciphertext : List Nat
  signature : Sig
  deriving DecidableEq, Repr

/-- The signed portion of a sender-key message: every logical field except
the signature itself. -/
def senderKeyMessageBody (message_version : Nat) (distribution_id : Nat)
    (chain_id : Nat) (iteration : Nat) (ciphertext : List Nat) : List Nat :=
  message_version :: distribution_id :: chain_id :: iteration :: ciphertext

/-- Modelled from the spec: `SenderKeyMessage::new` (`src/protocol.rs`
lines 288-318) delegates to the external crate, passing it a freshly drawn
OS RNG; per §4.1 the signature scheme may be randomized, so the signature
consumes the RNG draw `rand`. -/
def SenderKeyMessage.new (message_version : Nat) (distribution_id : Nat)
    (key_id : Nat) (iteration : Nat) (ciphertext : List Nat)
    (signature_key : Nat) (rand : Nat) : SenderKeyMessage :=
  { message_version := message_version, distribution_id := distribution_id,
    chain_id := key_id, iteration := iteration, ciphertext := ciphertext,
    signature := sign signature_key
      (senderKeyMessageBody message_version distribution_id key_id iteration
        ciphertext) rand }

/-- `SenderKeyMessage::serialized` (`src/protocol.rs` lines 320-322): the
deterministic byte encoding of the message — header fields, the three
signature components, then the ciphertext. -/
def SenderKeyMessage.serialized (m : SenderKeyMessage) : List Nat :=
  m.message_version :: m.distribution_id :: m.chain_id :: m.iteration ::
    m.signature.signerPub :: m.signature.msgDigest :: m.signature.nonce ::
    m.ciphertext

/-- Parsing a serialized sender-key message back into its fields. -/
def parseSenderKeyMessage : List Nat → Option SenderKeyMessage
  | v :: did :: chid :: it :: sp :: md :: no :: ct =>
    some { message_version := v, distribution_id := did, chain_id := chid,
           iteration := it, ciphertext := ct,
           signature := { signerPub := sp, msgDigest := md, nonce := no } }
  | _ => none

theorem parse_serialized (m : SenderKeyMessage) :
    parseSenderKeyMessage m.serialized = some m := by
  rfl

/-- A sender-key distribution message publishes (distribution id, chain
id, iteration, chain key, verification public key) (spec §4.5 and
`src/protocol.rs`, SenderKeyDistributionMessage). -/
structure SenderKeyDistributionMessage where
  distribution_id : Nat
  chain_id : Nat
  iteration : Nat
  chain_key : Nat
  signing_key : Nat
  deriving DecidableEq, Repr

/-- Bound on how far group decryption will fast-forward a chain (spec
§4.5: an excessive jump is a hard failure). -/
def MAX_FORWARD_JUMPS : Nat := 25000

/-- Modelled from the spec: `create_sender_key_distribution_message`
(`src/group_cipher.rs` lines 63-84) delegates to the external crate; per
§4.5 it creates fresh per-distribution state (chain id, chain key and a
signing key pair drawn from the RNG) when none is stored, stores it, and
publishes the distribution message for the current state. -/
def create_sender_key_distribution_message (sender : ProtocolAddress)
    (distribution_id : Nat) (store : InMemSignalProtocolStore)
    (rand : Nat) :
    SenderKeyDistributionMessage × InMemSignalProtocolStore :=
  match alookup store.senderKeys (sender, distribution_id) with
  | some st =>
    ({ distribution_id := distribution_id, chain_id := st.chain_id,
       iteration := st.iteration, chain_key := st.chainKey,
       signing_key := st.signingPub }, store)
  | none =>
    let st : SenderKeyState :=
      { chain_id := mix 4 rand, iteration := 0, chainKey := mix 5 rand,
        signingPub := pubOf (mix 6 rand), signingPriv := some (mix 6 rand) }
    ({ distribution_id := distribution_id, chain_id := st.chain_id,
       iteration := st.iteration, chain_key := st.chainKey,
       signing_key := st.signingPub },
     { store with
         senderKeys := ((sender, distribution_id), st) :: store.senderKeys })

/-- Modelled from the spec: `process_sender_key_distribution_message`
(`src/group_cipher.rs` lines 48-61) stores the published chain state for
(sender address, distribution id); the recipient holds only the
verification public key, no signing private key. -/
def process_sender_key_distribution_message (sender : ProtocolAddress)
    (skdm : SenderKeyDistributionMessage) (store : InMemSignalProtocolStore) :
    InMemSignalProtocolStore :=
  let st : SenderKeyState :=
    { chain_id := skdm.chain_id, iteration := skdm.iteration,
      chainKey := skdm.chain_key, signingPub := skdm.signing_key,
      signingPriv := none }
  { store with
      senderKeys := ((sender, skdm.distribution_id), st) :: store.senderKeys }

/-- Modelled from the spec: `group_encrypt` (`src/group_cipher.rs` lines
14-31) delegates to the external crate; per §4.5 it derives the message
key from the stored chain, encrypts, signs the message with the
per-distribution signing key, advances the chain one step (never
rewinding) and returns the serialized message bytes. -/
def group_encrypt (store : InMemSignalProtocolStore)
    (sender : ProtocolAddress) (distribution_id : Nat)
    (plaintext : List Nat) (rand : Nat) :
    Except SignalError (List Nat × InMemSignalProtocolStore) :=
  match alookup store.senderKeys (sender, distribution_id) with
  | none => .error (.sessionNotFound "no sender key state")
  | some st =>
    match st.signingPriv with
    | none => .error (.invalidKeyMaterial "no signing key pair")
    | some sk =>
      let ct := xorCrypt (msgKeyOf st.chainKey) plaintext
      let m := SenderKeyMessage.new 3 distribution_id st.chain_id
        st.iteration ct sk rand
      let st' : SenderKeyState :=
        { st with iteration := st.iteration + 1,
                  chainKey := ckAdvance st.chainKey }
      .ok (m.serialized,
           { store with
               senderKeys := ((sender, distribution_id), st')
                 :: store.senderKeys })

/-- Modelled from the spec: `group_decrypt` (`src/group_cipher.rs` lines
33-46) delegates to the external crate; per §4.5 it parses the message,
looks up the stored chain by (sender address, distribution id),
fast-forwards a bounded number of steps when the incoming iteration is
ahead, rejects an iteration behind the stored position as a
replay/ordering failure, verifies the signature, and only then releases
the plaintext. -/
def group_decrypt (skm_bytes : List Nat) (store : InMemSignalProtocolStore)
    (sender : ProtocolAddress) :
    Except SignalError (List Nat × InMemSignalProtocolStore) :=
  match parseSenderKeyMessage skm_bytes with
  | none => .error (.unknownMessageVersion "truncated sender key message")
  | some m =>
    match alookup store.senderKeys (sender, m.distribution_id) with
    | none => .error (.sessionNotFound "no sender key state")
    | some st =>
      if m.chain_id ≠ st.chain_id then
        .error (.sessionNotFound "unknown chain id")
      else if m.iteration < st.iteration then
        .error (.replayOrOrderingViolation "message from the past")
      else if MAX_FORWARD_JUMPS < m.iteration - st.iteration then
        .error (.replayOrOrderingViolation "excessive jump")
      else
        let ck := ckAdvance^[m.iteration - st.iteration] st.chainKey
        if verify st.signingPub
            (senderKeyMessageBody m.message_version m.distribution_id
              m.chain_id m.iteration m.ciphertext) m.signature then
          let st' : SenderKeyState :=
            { st with iteration := m.iteration + 1,
                      chainKey := ckAdvance ck }
          .ok (xorCrypt (msgKeyOf ck) m.ciphertext,
               { store with
                   senderKeys := ((sender, m.distribution_id), st')
                     :: store.senderKeys })
        else
          .error (.signatureVerificationFailed "bad signature")

/-! ## Sample certificate values used by concrete instances -/

/-- A sample server certificate under trust root private key 9. -/
def sampleServerCert : ServerCertificate :=
  ServerCertificate.new 1 (pubOf 11) 9 100

/-- A sample sender certificate signed by `sampleServerCert`'s key. -/
def sampleSenderCert : SenderCertificate :=
  SenderCertificate.new "alice" none (pubOf 12) 1 1000 sampleServerCert 11 101

/-! ## Theorems -/

/-- Claim C10: every `MyUuid` produced by its constructor equals the fixed
UUID 67e55044-10b1-426f-9247-bb680e5fe0c8, so any two distribution ids
obtained from `MyUuid` agree, and group encryption and distribution-message
creation through this interface key all state by the one hard-coded
distribution id. -/
theorem C10_myuuid_hardcoded :
    (∀ u : Unit, (MyUuid.new u).uuid = fixedUuid)
    ∧ (∀ u1 u2 : Unit, MyUuid.new u1 = MyUuid.new u2)
    ∧ (∀ (u1 u2 : Unit) (store : InMemSignalProtocolStore)
        (sender : ProtocolAddress) (p : List Nat) (r : Nat),
        group_encrypt store sender (MyUuid.new u1).uuid p r
          = group_encrypt store sender (MyUuid.new u2).uuid p r)
    ∧ (∀ (u1 u2 : Unit) (sender : ProtocolAddress)
        (store : InMemSignalProtocolStore) (r : Nat),
        create_sender_key_distribution_message sender (MyUuid.new u1).uuid
            store r
          = create_sender_key_distribution_message sender (MyUuid.new u2).uuid
            store r) :=
  ⟨fun _ => rfl, fun _ _ => rfl, fun _ _ _ _ _ _ => rfl, fun _ _ _ _ _ => rfl⟩

/-- Claim C1, counterexample: `UnidentifiedSenderMessageContent::new` given
the discriminant 4 does not construct the sender-key variant — it rejects 4
with the "unknown message type" error (the source maps 7, not 4, to
SenderKey at this call site). -/
theorem C1_counterexample :
    UnidentifiedSenderMessageContent.new 4 sampleSenderCert [] 0 []
      = Except.error "unknown message type: 4" := by
  rfl

/-- Claim C1 (amended): `CiphertextMessage::message_type` follows the fixed
enumeration 2 = Whisper, 3 = PreKey, 4 = SenderKey,
5 = SenderKeyDistribution, while `UnidentifiedSenderMessageContent::new`
constructs the sender-key variant from the discriminant 7 (not 4) and
rejects every value outside {2, 3, 7} — including 4 — with an
"unknown message type" error. -/
theorem C1_message_type_enumeration :
    (∀ b, CiphertextMessage.message_type { msgType := .Whisper, bytes := b } = 2)
    ∧ (∀ b, CiphertextMessage.message_type { msgType := .PreKey, bytes := b } = 3)
    ∧ (∀ b, CiphertextMessage.message_type { msgType := .SenderKey, bytes := b } = 4)
    ∧ (∀ b, CiphertextMessage.message_type
        { msgType := .SenderKeyDistribution, bytes := b } = 5)
    ∧ (∀ s c hint g, UnidentifiedSenderMessageContent.new 7 s c hint g
        = Except.ok { msgType := .SenderKey, sender := s, contents := c,
                      content_hint := hint, group_id := g })
    ∧ (∀ v s c hint g, v ≠ 2 → v ≠ 3 → v ≠ 7 →
        UnidentifiedSenderMessageContent.new v s c hint g
          = Except.error ("unknown message type: " ++ toString v)) := by
  refine ⟨fun _ => rfl, fun _ => rfl, fun _ => rfl, fun _ => rfl,
          fun _ _ _ _ => rfl, ?_⟩
  intro v s c hint g h2 h3 h7
  unfold UnidentifiedSenderMessageContent.new
  split
  · exact absurd rfl h2
  · exact absurd rfl h3
  · exact absurd rfl h7
  · rfl

/-- Claim C1, witness: the amended rejection clause applied at the concrete
discriminant 9. -/
theorem C1_message_type_enumeration_witness :
    UnidentifiedSenderMessageContent.new 9 sampleSenderCert [] 0 []
      = Except.error ("unknown message type: " ++ toString 9) :=
  C1_message_type_enumeration.2.2.2.2.2 9 sampleSenderCert [] 0 []
    (by decide) (by decide) (by decide)

/-- Claim C4: contrary to the claim, passing `None` for the optional
one-time prekey reference panics: `PreKeyBundle::new` with
`pre_key_public = None` panics with message "todo", and
`PreKeySignalMessage::new` with `pre_key_id = None` panics with message
"foo" — the construction does not complete with the field absent. -/
theorem C4_optional_prekey_panics :
    PreKeyBundle.new 1 1 1 none 1 (pubOf 2) [] (pubOf 3)
      = PyOutcome.panic "todo"
    ∧ PreKeySignalMessage.new 3 1 none 1 (pubOf 4) (pubOf 5) { bytes := [] }
      = PyOutcome.panic "foo" :=
  ⟨rfl, rfl⟩

/-- Claim C6, counterexample: a storage failure carrying the message
"backend write failed" is returned by `process_prekey_bundle` as the fixed
generic error "error processing prekey bundle" — the underlying kind and
message are not preserved. -/
theorem C6_counterexample :
    process_prekey_bundle_wrap
      (Except.error (SignalError.storageFailure "backend write failed"))
      = Except.error { message := "error processing prekey bundle" }
    ∧ (SignalError.storageFailure "backend write failed").message
        ≠ "error processing prekey bundle" := by
  exact ⟨rfl, by decide⟩

/-- Claim C6 (amended): on every failing input, `process_prekey_bundle` and
`process_prekey` replace the underlying error, whatever its kind and
message, with the generic error "error processing prekey bundle";
successful results are passed through unchanged. -/
theorem C6_generic_error_replacement :
    (∀ e : SignalError, process_prekey_bundle_wrap (Except.error e)
      = Except.error { message := "error processing prekey bundle" })
    ∧ (∀ e : SignalError, process_prekey_wrap (Except.error e)
      = Except.error { message := "error processing prekey bundle" })
    ∧ process_prekey_bundle_wrap (Except.ok ()) = Except.ok ()
    ∧ (∀ x, process_prekey_wrap (Except.ok x) = Except.ok x) :=
  ⟨fun _ => rfl, fun _ => rfl, rfl, fun _ => rfl⟩

/-- Claim C7: for every address with no stored session, `load_session`
returns absent (`none`) rather than an error; and after
`store_session(address, record)`, `load_session(address)` returns that
stored record. -/
theorem C7_session_store_contract :
    (∀ (s : InMemSignalProtocolStore) (a : ProtocolAddress),
      alookup s.sessions a = none → s.load_session a = Except.ok none)
    ∧ (∀ (s : InMemSignalProtocolStore) (a : ProtocolAddress)
        (r : SessionRecord),
      (s.store_session a r).load_session a = Except.ok (some r)) := by
  constructor
  · intro s a h
    unfold InMemSignalProtocolStore.load_session
    rw [h]
  · intro s a r
    unfold InMemSignalProtocolStore.load_session
      InMemSignalProtocolStore.store_session
    rw [alookup_cons_self]

/-- Claim C7, witness: the empty store has no session for an address and
returns absent; storing then loading returns the stored record. -/
theorem C7_session_store_contract_witness :
    emptyStore.load_session { name := "alice", device_id := 1 }
      = Except.ok none
    ∧ (emptyStore.store_session { name := "alice", device_id := 1 }
        { rootKey := 1, chainKey := 2 }).load_session
        { name := "alice", device_id := 1 }
      = Except.ok (some { rootKey := 1, chainKey := 2 }) :=
  ⟨C7_session_store_contract.1 emptyStore { name := "alice", device_id := 1 }
    rfl,
   C7_session_store_contract.2 emptyStore { name := "alice", device_id := 1 }
    { rootKey := 1, chainKey := 2 }⟩

/-- Claim C8: `save_identity(address, identity)` returns `true` exactly
when a different identity was already stored for that address, and `false`
when no identity was stored or the stored identity equals the given one;
in every case a subsequent `get_identity(address)` returns the identity
just saved. -/
theorem C8_save_identity_change_flag :
    ∀ (s : InMemSignalProtocolStore) (a : ProtocolAddress) (idk : Nat),
      ((s.save_identity a idk).1 = true
        ↔ ∃ old, alookup s.identities a = some old ∧ old ≠ idk)
      ∧ (s.save_identity a idk).2.get_identity a = Except.ok (some idk) := by
  intro s a idk
  unfold InMemSignalProtocolStore.save_identity
    InMemSignalProtocolStore.get_identity
  cases halookup : alookup s.identities a with
  | none =>
    simp [halookup, alookup_cons_self]
  | some old =>
    by_cases he : old = idk
    · subst he
      simp [halookup]
    · simp [halookup, he, alookup_cons_self]

/-- Claim C2: for matching counterpart inputs, `initialize_alice_session`
and `initialize_bob_session` produce session records with identical root
keys and chain keys. -/
theorem C2_session_initialization_symmetry
    (a : AliceSignalProtocolParameters) (b : BobSignalProtocolParameters)
    (h : matchingParameters a b) :
    initialize_alice_session a = initialize_bob_session b := by
  obtain ⟨h1, h2, ⟨k, hk, hk2⟩, h4, h5⟩ := h
  have hsec : aliceSecrets a = bobSecrets b := by
    unfold aliceSecrets bobSecrets
    rw [h1, h2, hk, hk2, h4, h5]
    rw [dh_comm a.our_identity_key_pair b.our_signed_pre_key_pair,
        dh_comm a.our_base_key_pair b.our_identity_key_pair,
        dh_comm a.our_base_key_pair b.our_signed_pre_key_pair,
        dh_comm a.our_base_key_pair k]
    rfl
  unfold initialize_alice_session initialize_bob_session
  rw [hsec]

/-- Claim C2, witness: the symmetry theorem applied at concrete private
scalars 1..6 with matching counterpart views. -/
theorem C2_session_initialization_symmetry_witness :
    initialize_alice_session
      { our_identity_key_pair := 1, our_base_key_pair := 2,
        their_identity_key := pubOf 3, their_signed_pre_key := pubOf 4,
        their_one_time_pre_key := pubOf 5 }
      = initialize_bob_session
      { our_identity_key_pair := 3, our_signed_pre_key_pair := 4,
        our_one_time_pre_key_pair := some 5, our_ratchet_key_pair := 6,
        their_identity_key := pubOf 1, their_base_key := pubOf 2 } :=
  C2_session_initialization_symmetry _ _
    ⟨rfl, rfl, ⟨5, rfl, rfl⟩, rfl, rfl⟩

/-- Claim C3: for a server certificate created under trust root `trustPriv`
and a sender certificate signed by that server certificate's key,
validation succeeds for every `now` strictly before expiration, and
reports failure whenever `now` is at or after expiration or the trust root
differs from the creating one. -/
theorem C3_sender_certificate_validation
    (uuid : String) (e164 : Option String) (senderKey : Nat) (devId : Nat)
    (expiration : Nat) (key_id : Nat) (serverPriv : Nat) (trustPriv : Nat)
    (r1 r2 : Nat) :
    (∀ now, now < expiration →
      (SenderCertificate.new uuid e164 senderKey devId expiration
        (ServerCertificate.new key_id (pubOf serverPriv) trustPriv r1)
        serverPriv r2).validate (pubOf trustPriv) now = true)
    ∧ (∀ now, expiration ≤ now →
      (SenderCertificate.new uuid e164 senderKey devId expiration
        (ServerCertificate.new key_id (pubOf serverPriv) trustPriv r1)
        serverPriv r2).validate (pubOf trustPriv) now = false)
    ∧ (∀ otherRoot now, otherRoot ≠ pubOf trustPriv →
      (SenderCertificate.new uuid e164 senderKey devId expiration
        (ServerCertificate.new key_id (pubOf serverPriv) trustPriv r1)
        serverPriv r2).validate otherRoot now = false) := by
  refine ⟨?_, ?_, ?_⟩
  · intro now hnow
    simp [SenderCertificate.validate, ServerCertificate.validate,
      SenderCertificate.new, ServerCertificate.new, verify, sign, hnow]
  · intro now hnow
    simp [SenderCertificate.validate, ServerCertificate.validate,
      SenderCertificate.new, ServerCertificate.new, verify, sign]
    omega
  · intro otherRoot now hne
    simp [SenderCertificate.validate, ServerCertificate.validate,
      SenderCertificate.new, ServerCertificate.new, verify, sign,
      Ne.symm hne]

/-- Claim C3, witness: the validation theorem at concrete keys, before
expiry, at expiry, and against a different trust root. -/
theorem C3_sender_certificate_validation_witness :
    ((SenderCertificate.new "alice" none (pubOf 12) 1 1000
        (ServerCertificate.new 1 (pubOf 11) 9 100) 11 101).validate
        (pubOf 9) 500 = true)
    ∧ ((SenderCertificate.new "alice" none (pubOf 12) 1 1000
        (ServerCertificate.new 1 (pubOf 11) 9 100) 11 101).validate
        (pubOf 9) 1000 = false)
    ∧ ((SenderCertificate.new "alice" none (pubOf 12) 1 1000
        (ServerCertificate.new 1 (pubOf 11) 9 100) 11 101).validate
        (pubOf 9 + 1) 500 = false) :=
  ⟨(C3_sender_certificate_validation "alice" none (pubOf 12) 1 1000 1 11 9
      100 101).1 500 (by decide),
   (C3_sender_certificate_validation "alice" none (pubOf 12) 1 1000 1 11 9
      100 101).2.1 1000 (by decide),
   (C3_sender_certificate_validation "alice" none (pubOf 12) 1 1000 1 11 9
      100 101).2.2 (pubOf 9 + 1) 500 (by decide)⟩

/-- When the store holds sender-key state with a signing key pair,
`group_encrypt` produces the signed message for the current iteration and
advances the chain one step. -/
theorem group_encrypt_eq (store : InMemSignalProtocolStore)
    (sender : ProtocolAddress) (did : Nat) (st : SenderKeyState) (sk : Nat)
    (P : List Nat) (r : Nat)
    (hst : alookup store.senderKeys (sender, did) = some st)
    (hsk : st.signingPriv = some sk) :
    group_encrypt store sender did P r
      = Except.ok ((SenderKeyMessage.new 3 did st.chain_id st.iteration
          (xorCrypt (msgKeyOf st.chainKey) P) sk r).serialized,
        { store with senderKeys := ((sender, did),
            { st with iteration := st.iteration + 1,
                      chainKey := ckAdvance st.chainKey })
          :: store.senderKeys }) := by
  simp only [group_encrypt, hst, hsk]

/-- When the store holds sender-key state in sync with an incoming message
signed by the matching private key, `group_decrypt` verifies the signature
and returns the original plaintext, advancing the stored chain. -/
theorem group_decrypt_eq (store : InMemSignalProtocolStore)
    (sender : ProtocolAddress) (did : Nat) (st : SenderKeyState) (sk : Nat)
    (P : List Nat) (r : Nat)
    (hst : alookup store.senderKeys (sender, did) = some st)
    (hpub : st.signingPub = pubOf sk) :
    group_decrypt ((SenderKeyMessage.new 3 did st.chain_id st.iteration
        (xorCrypt (msgKeyOf st.chainKey) P) sk r).serialized) store sender
      = Except.ok (P, { store with senderKeys := ((sender, did),
          { st with iteration := st.iteration + 1,
                    chainKey := ckAdvance st.chainKey })
        :: store.senderKeys }) := by
  simp only [group_decrypt, parse_serialized, SenderKeyMessage.new, hst]
  simp [verify, sign, senderKeyMessageBody, MAX_FORWARD_JUMPS, hpub,
        xorCrypt_involutive, Nat.sub_self, Function.iterate_zero]

/-- Claim C5: for every plaintext, after a recipient has processed the
sender's sender-key distribution message for (sender address, distribution
id), `group_decrypt` applied to the bytes produced by `group_encrypt` for
that same (sender address, distribution id) returns the plaintext. -/
theorem C5_group_round_trip
    (sender : ProtocolAddress) (did : Nat) (P : List Nat) (r1 r2 : Nat)
    (S0 R0 : InMemSignalProtocolStore)
    (hS : alookup S0.senderKeys (sender, did) = none) :
    ∃ bytes S2 R2,
      group_encrypt (create_sender_key_distribution_message sender did S0
          r1).2 sender did P r2
        = Except.ok (bytes, S2)
      ∧ group_decrypt bytes
          (process_sender_key_distribution_message sender
            (create_sender_key_distribution_message sender did S0 r1).1 R0)
          sender
        = Except.ok (P, R2) := by
  have hcreate : create_sender_key_distribution_message sender did S0 r1
      = ({ distribution_id := did, chain_id := mix 4 r1, iteration := 0,
           chain_key := mix 5 r1, signing_key := pubOf (mix 6 r1) },
         { S0 with senderKeys := ((sender, did),
             { chain_id := mix 4 r1, iteration := 0, chainKey := mix 5 r1,
               signingPub := pubOf (mix 6 r1),
               signingPriv := some (mix 6 r1) }) :: S0.senderKeys }) := by
    simp only [create_sender_key_distribution_message, hS]
  rw [hcreate]
  exact ⟨_, _, _,
    group_encrypt_eq _ sender did
      { chain_id := mix 4 r1, iteration := 0, chainKey := mix 5 r1,
        signingPub := pubOf (mix 6 r1), signingPriv := some (mix 6 r1) }
      (mix 6 r1) P r2 (alookup_cons_self _ _ _) rfl,
    group_decrypt_eq _ sender did
      { chain_id := mix 4 r1, iteration := 0, chainKey := mix 5 r1,
        signingPub := pubOf (mix 6 r1), signingPriv := none }
      (mix 6 r1) P r2 (alookup_cons_self _ _ _) rfl⟩

/-- Claim C5, witness: the group round trip at a concrete sender address,
the hard-coded distribution id, plaintext [1, 2, 3] and concrete RNG
draws, starting from empty stores. -/
theorem C5_group_round_trip_witness :
    ∃ bytes S2 R2,
      group_encrypt (create_sender_key_distribution_message
          { name := "alice", device_id := 1 } fixedUuid emptyStore 7).2
          { name := "alice", device_id := 1 } fixedUuid [1, 2, 3] 8
        = Except.ok (bytes, S2)
      ∧ group_decrypt bytes
          (process_sender_key_distribution_message
            { name := "alice", device_id := 1 }
            (create_sender_key_distribution_message
              { name := "alice", device_id := 1 } fixedUuid emptyStore 7).1
            emptyStore)
          { name := "alice", device_id := 1 }
        = Except.ok ([1, 2, 3], R2) :=
  C5_group_round_trip { name := "alice", device_id := 1 } fixedUuid
    [1, 2, 3] 7 8 emptyStore emptyStore rfl

/-- Claim C9, counterexample: two calls of `SenderKeyMessage::new` with
identical message_version, distribution_id, key_id, iteration, ciphertext
and signature_key but different signature randomness produce different
serialized bytes. -/
theorem C9_counterexample :
    (SenderKeyMessage.new 3 fixedUuid 1 0 [1, 2] 5 100).serialized
      ≠ (SenderKeyMessage.new 3 fixedUuid 1 0 [1, 2] 5 101).serialized := by
  decide

/-- Claim C9 (amended): `serialized()` is a deterministic function of the
message's full logical content including its signature — equal messages
serialize to equal bytes — but `SenderKeyMessage::new` draws fresh
signature randomness, so two constructions with identical arguments yield
identical bytes exactly when the randomness also coincides. -/
theorem C9_serialized_deterministic :
    (∀ m1 m2 : SenderKeyMessage, m1 = m2 → m1.serialized = m2.serialized)
    ∧ (∀ v d k i ct key r1 r2,
        (SenderKeyMessage.new v d k i ct key r1).serialized
          = (SenderKeyMessage.new v d k i ct key r2).serialized ↔ r1 = r2) := by
  constructor
  · intro m1 m2 h
    rw [h]
  · intro v d k i ct key r1 r2
    simp [SenderKeyMessage.new, SenderKeyMessage.serialized, sign]

/-- Claim C9, witness: determinism applied to two syntactically equal
messages. -/
theorem C9_serialized_deterministic_witness :
    (SenderKeyMessage.new 3 1 1 0 [] 5 9).serialized
      = (SenderKeyMessage.new 3 1 1 0 [] 5 9).serialized :=
  C9_serialized_deterministic.1 _ _ rfl

end SignalSpec
